import Mathlib

/-
  Verification development for the CPBL baseball dashboard repository.

  The definitions below are a shallow embedding of the data acquisition and
  normalization pipeline:
  - the HTML extractor and team data fetcher (app/scrapers/cpbl_scraper.py and
    scrapers/cpbl_scraper.py),
  - the local cache / freshness controller (BaseballCoach.load_data in
    app/main.py),
  - the stats query engine (app/models/player_stats.py) and the sort and
    filter logic of BaseballCoach.player_search (app/main.py),
  - the rule based lookup assistant (app/models/baseball_llm.py),
  - the pure statistics calculator (baseball-main/app/models/calculator.py).

  HTML documents are modelled by records carrying exactly the fragments the
  Python code reads through BeautifulSoup (an element that may be absent is an
  Option, a list of elements is a List).  Python dicts are association lists
  updated in place, machine text is String, numbers that the code manipulates
  as ints are Int and float arithmetic on ratios is exact rational arithmetic.
  A Python block that catches exceptions and continues is modelled by folding
  an Option or Except valued row parser, so that the granularity at which an
  error is contained is visible in the type.
-/

namespace Baseball

/-! ### Generic helpers: Python dict and str primitives -/

/-- Association list lookup, the model of a Python dict read d[k] / d.get(k). -/
def lookupA {α : Type} : List (String × α) → String → Option α
  | [], _ => none
  | (k, v) :: t, key => if key = k then some v else lookupA t key

/-- Association list update, the model of a Python dict write d[k] = v: an
existing key keeps its position and gets the new value, a new key is appended
at the end (Python dicts preserve insertion order). -/
def insertA {α : Type} : List (String × α) → String → α → List (String × α)
  | [], k, v => [(k, v)]
  | (k0, v0) :: t, k, v =>
    if k0 = k then (k0, v) :: t else (k0, v0) :: insertA t k v

/-- Character list prefix test. -/
def isPrefixCL : List Char → List Char → Bool
  | [], _ => true
  | _ :: _, [] => false
  | p :: ps, h :: hs => p = h && isPrefixCL ps hs

/-- Character list substring test. -/
def containsCL (pat : List Char) : List Char → Bool
  | [] => pat.isEmpty
  | h :: t => isPrefixCL pat (h :: t) || containsCL pat t

/-- Model of the Python substring test pat in hay. -/
def strContains (hay pat : String) : Bool :=
  containsCL pat.data hay.data

/-- Model of Python str.split(sep) for a single character separator. -/
def splitOnCharCL (c : Char) : List Char → List (List Char)
  | [] => [[]]
  | h :: t =>
    let r := splitOnCharCL c t
    if h = c then [] :: r
    else
      match r with
      | [] => [[h]]
      | x :: xs => (h :: x) :: xs

/-- Model of Python str.split(sep) for a single character separator. -/
def splitOnChar (c : Char) (s : String) : List String :=
  (splitOnCharCL c s.data).map (fun l => String.mk l)

/-- Value of a nonempty all-digit character list, none otherwise. -/
def digitsVal : List Char → Option Nat
  | [] => none
  | cs =>
    cs.foldl
      (fun acc c =>
        match acc with
        | none => none
        | some n => if c.isDigit then some (n * 10 + (c.toNat - 48)) else none)
      (some 0)

/-- Model of Python str.strip(): drop leading and trailing whitespace. -/
def trimS (s : String) : String :=
  String.mk (((s.data.dropWhile Char.isWhitespace).reverse.dropWhile
    Char.isWhitespace).reverse)

/-- Model of Python str.lower() (ASCII letters; other codepoints unchanged). -/
def lowerS (s : String) : String :=
  String.mk (s.data.map Char.toLower)

/-- Model of Python int(str): optional sign followed by digits, with
surrounding whitespace allowed; none models a raised ValueError. -/
def pyInt (s : String) : Option Int :=
  let l := ((s.data.dropWhile Char.isWhitespace).reverse.dropWhile
    Char.isWhitespace).reverse
  match l with
  | '-' :: rest => (digitsVal rest).map (fun n => -(n : Int))
  | '+' :: rest => (digitsVal rest).map (fun n => (n : Int))
  | _ => (digitsVal l).map (fun n => (n : Int))

/-! ### Static tables (CPBLScraper and BaseballCoach) -/

/-- Fixed team name to team code mapping of CPBLScraper._get_team_id. -/
def team_name_to_id : List (String × String) :=
  [("中信兄弟", "ACN"), ("統一7-ELEVEn獅", "ADD"), ("樂天桃猿", "AJL"),
   ("富邦悍將", "AEO"), ("味全龍", "AAA"), ("台鋼雄鷹", "AKP")]

/-- Model of CPBLScraper._get_team_id: resolve a scraped team name to one of
the six fixed codes, none when the name is unknown. -/
def get_team_id (name : String) : Option String :=
  lookupA team_name_to_id name

/-- The six team codes in the fixed order in which BaseballCoach.load_data
iterates over them. -/
def team_codes : List String :=
  ["ACN", "ADD", "AJL", "AEO", "AAA", "AKP"]

/-- Static founding year table, duplicated verbatim in
CPBLScraper._parse_team_info and BaseballCoach._show_team_basic_info. -/
def team_established_years : List (String × String) :=
  [("ACN", "1990"), ("ADD", "1990"), ("AJL", "2003"),
   ("AEO", "1993"), ("AAA", "1990"), ("AKP", "2023")]

/-- Model of team_established_years.get(code, 'N/A'). -/
def establishedYear (code : String) : String :=
  (lookupA team_established_years code).getD "N/A"

/-- Model of team_established_years.get(self.current_team_code, 'N/A') where
the current team code field may still be None. -/
def establishedOf : Option String → String
  | some c => establishedYear c
  | none => "N/A"

/-! ### Calculator (baseball-main/app/models/calculator.py) -/

/-- Model of BaseballCalculator.calculate_batting_avg. -/
def calculate_batting_avg (hits at_bats : ℚ) : ℚ :=
  if at_bats = 0 then 0 else hits / at_bats

/-- Model of BaseballCalculator.calculate_era. -/
def calculate_era (earned_runs innings : ℚ) : ℚ :=
  if innings = 0 then 0 else earned_runs * 9 / innings

/-- Model of BaseballCalculator.calculate_whip. -/
def calculate_whip (walks hits innings : ℚ) : ℚ :=
  if innings = 0 then 0 else (walks + hits) / innings

/-! ### Standings page (CPBLScraper.fetch_standings)

A standings row carries the fragments the code reads: the list of td texts,
the text of the team div (classes team-w-trophy or team) when present, and
the text of the rank div inside the first td when present. -/

structure SRow where
  cols : List String
  team : Option String
  rank : Option String
  deriving DecidableEq

/-- One standings entry as stored by fetch_standings. -/
structure TeamRecordR where
  rank : Int
  wins : Int
  losses : Int
  ratio : String
  deriving DecidableEq

/-- Model of one iteration of the row loop of CPBLScraper.fetch_standings.
The loop body runs under a per-row try/except that continues on error, so a
row that raises (a non-numeric int() argument) and a row that is skipped by a
guard both contribute nothing: both are none here. -/
def parseSRow (r : SRow) : Option (String × TeamRecordR) :=
  if 5 ≤ r.cols.length then
    match r.team with
    | none => none
    | some nm =>
      if nm = "" then none
      else
        match get_team_id nm with
        | none => none
        | some tid =>
          let recordText := r.cols.getD 2 ""
          let wl : Option (Int × Int) :=
            if strContains recordText "-" then
              let parts := splitOnChar '-' recordText
              if 3 ≤ parts.length then
                match pyInt (parts.getD 0 ""), pyInt (parts.getD 2 "") with
                | some w, some l => some (w, l)
                | _, _ => none
              else some (0, 0)
            else some (0, 0)
          match wl with
          | none => none
          | some (w, l) =>
            let ratioText := r.cols.getD 3 ""
            let ratio := if ratioText = "" then "0.000" else ratioText
            match r.rank with
            | some s =>
              match pyInt s with
              | some rk => some (tid, ⟨rk, w, l, ratio⟩)
              | none => none
            | none => some (tid, ⟨0, w, l, ratio⟩)
  else none

/-- One iteration of the standings row loop acting on the accumulated dict. -/
def standingsStep (acc : List (String × TeamRecordR)) (r : SRow) :
    List (String × TeamRecordR) :=
  match parseSRow r with
  | some (tid, rec) => insertA acc tid rec
  | none => acc

/-- Fold of the standings row loop over the data rows. -/
def standingsOfRows (rows : List SRow) : List (String × TeamRecordR) :=
  rows.foldl standingsStep []

/-- Standings document: the rows of the first table that contains a tr, or
none when no table with rows exists on the page. -/
structure StandingsDoc where
  rows : Option (List SRow)
  deriving DecidableEq

/-- Model of CPBLScraper.fetch_standings: skip the header row, then process
each remaining row under its per-row try/except. -/
def fetch_standings (doc : StandingsDoc) : List (String × TeamRecordR) :=
  match doc.rows with
  | some rs => standingsOfRows (rs.drop 1)
  | none => []

/-! ### Venue page (CPBLScraper.fetch_venue_stats)

A venue row carries the td texts and the text of the a element inside the
team-w-trophy div of the first td; none for the latter models the
AttributeError raised when the div or the link is missing. -/

structure VRow where
  cols : List String
  teamLink : Option String
  deriving DecidableEq

/-- One side (home or away) of a venue entry.  The ratio is the float
wins/(wins+losses) computed by the code, modelled exactly in ℚ. -/
structure VenueSide where
  wins : Int
  losses : Int
  ratio : ℚ
  deriving DecidableEq

structure VenueRec where
  home : VenueSide
  away : VenueSide
  deriving DecidableEq

/-- Model of parsing one dash separated record cell of the venue table:
wins = int(parts[0]), losses = int(parts[1]), ratio = wins/(wins+losses).
An error result models a raised ValueError, IndexError or
ZeroDivisionError. -/
def sideOf (s : String) : Except Unit VenueSide :=
  let parts := splitOnChar '-' s
  match pyInt (parts.getD 0 "") with
  | none => Except.error ()
  | some w =>
    if 2 ≤ parts.length then
      match pyInt (parts.getD 1 "") with
      | none => Except.error ()
      | some l =>
        if w + l = 0 then Except.error ()
        else Except.ok ⟨w, l, (w : ℚ) / ((w : ℚ) + (l : ℚ))⟩
    else Except.error ()

/-- Model of one iteration of the row loop of CPBLScraper.fetch_venue_stats.
Unlike the standings loop this loop has no per-row try/except: an error
result propagates to the whole-function handler.  ok none is the graceful
skip of an unknown team name. -/
def parseVRow (r : VRow) : Except Unit (Option (String × VenueRec)) :=
  if r.cols.isEmpty then Except.error ()
  else
    match r.teamLink with
    | none => Except.error ()
    | some nm =>
      match get_team_id nm with
      | none => Except.ok none
      | some tid =>
        if 2 ≤ r.cols.length then
          let homeText := r.cols.getD (r.cols.length - 2) ""
          let awayText := r.cols.getD (r.cols.length - 1) ""
          match sideOf homeText, sideOf awayText with
          | Except.ok hs, Except.ok as => Except.ok (some (tid, ⟨hs, as⟩))
          | _, _ => Except.error ()
        else Except.error ()

/-- Sequential processing of the venue rows: the first raised error aborts
the whole loop. -/
def venueGo : List VRow → List (String × VenueRec) →
    Except Unit (List (String × VenueRec))
  | [], acc => Except.ok acc
  | r :: rs, acc =>
    match parseVRow r with
    | Except.error e => Except.error e
    | Except.ok none => venueGo rs acc
    | Except.ok (some (tid, rec)) => venueGo rs (insertA acc tid rec)

/-- Venue document: the rows of the table inside the RecordTable div, or
none when the div or the table is missing. -/
structure VenueDoc where
  table : Option (List VRow)
  deriving DecidableEq

/-- Model of CPBLScraper.fetch_venue_stats: any exception inside the row loop
is caught only by the function level handler, which returns the empty dict,
discarding every row of the page. -/
def fetch_venue_stats (doc : VenueDoc) : List (String × VenueRec) :=
  match doc.table with
  | none => []
  | some rows =>
    match venueGo (rows.drop 1) [] with
    | Except.ok l => l
    | Except.error _ => []

/-! ### Schedule page (CPBLScraper.fetch_recent_games) -/

/-- One game card of the schedule page: the date div text, the team div
texts, and the score div text, with none modelling a missing element (an
AttributeError inside the per-game try/except). -/
structure GameRow where
  date : Option String
  teams : List String
  score : Option String
  deriving DecidableEq

/-- One entry of a team's recent-games list. -/
structure GameEntry where
  date : String
  result : String
  score : String
  deriving DecidableEq

/-- The entry appended to the home team's list for one parsed game. -/
def homeEntryOf (d : String) (hs az : Int) : GameEntry :=
  ⟨d, if az < hs then "W" else "L", toString hs ++ "-" ++ toString az⟩

/-- The entry appended to the away team's list for one parsed game, with the
opposite result. -/
def awayEntryOf (d : String) (hs az : Int) : GameEntry :=
  ⟨d, if az < hs then "L" else "W", toString hs ++ "-" ++ toString az⟩

/-- Model of the per-game extraction of CPBLScraper.fetch_recent_games: the
game contributes the pair of entries exactly when the date and score elements
exist, there are exactly two team divs, both names resolve to codes, and the
score splits on the colon into two ints.  none models a skipped game (guard
failure or exception caught by the per-game try/except). -/
def gameParse (g : GameRow) :
    Option (String × String × GameEntry × GameEntry) :=
  match g.date, g.score with
  | some d, some sc =>
    if g.teams.length = 2 then
      match get_team_id (g.teams.getD 0 ""), get_team_id (g.teams.getD 1 "") with
      | some hid, some aid =>
        let scores := splitOnChar ':' sc
        if scores.length = 2 then
          match pyInt (scores.getD 0 ""), pyInt (scores.getD 1 "") with
          | some hs, some az =>
            some (hid, aid, homeEntryOf d hs az, awayEntryOf d hs az)
          | _, _ => none
        else none
      | _, _ => none
    else none
  | _, _ => none

/-- Model of recent_games.setdefault(k, []).append(e): append e to the list
stored at k, creating the key at the end when absent. -/
def appendEntry : List (String × List GameEntry) → String → GameEntry →
    List (String × List GameEntry)
  | [], k, e => [(k, [e])]
  | (k0, l) :: t, k, e =>
    if k0 = k then (k0, l ++ [e]) :: t else (k0, l) :: appendEntry t k e

/-- One iteration of the game loop of fetch_recent_games. -/
def processGame (acc : List (String × List GameEntry)) (g : GameRow) :
    List (String × List GameEntry) :=
  match gameParse g with
  | some (hid, aid, eH, eA) => appendEntry (appendEntry acc hid eH) aid eA
  | none => acc

/-- Sort a recent-games list by date, newest first, as
sorted(key=date, reverse=True). -/
def sortDateDesc (l : List GameEntry) : List GameEntry :=
  l.insertionSort (fun a b => b.date ≤ a.date)

structure ScheduleDoc where
  games : List GameRow
  deriving DecidableEq

/-- Model of CPBLScraper.fetch_recent_games: fold the per-game step over the
game cards, then keep the 10 most recent games of each team. -/
def fetch_recent_games (doc : ScheduleDoc) : List (String × List GameEntry) :=
  (doc.games.foldl processGame []).map
    (fun p => (p.1, (sortDateDesc p.2).take 10))

/-! ### Team page (CPBLScraper._parse_team_info, both copies) -/

/-- One dd item of the TeamBrief block: label div text and desc div text. -/
structure DDItem where
  label : Option String
  desc : Option String
  deriving DecidableEq

/-- The TeamBrief div: name div text, desc div text, and the dd items. -/
structure TeamBrief where
  nameDiv : Option String
  descDiv : Option String
  items : List DDItem
  deriving DecidableEq

/-- A fetched team page, as far as _parse_team_info reads it. -/
structure TeamDoc where
  brief : Option TeamBrief
  deriving DecidableEq

/-- One iteration of the dd-item loop of _parse_team_info: a label containing
主球場 stores the home field, one containing 總教練 stores the coach field. -/
def ddStep (acc : List (String × String)) (item : DDItem) :
    List (String × String) :=
  match item.label, item.desc with
  | some lb, some ds =>
    if strContains lb "主球場" then insertA acc "home" ds
    else if strContains lb "總教練" then insertA acc "coach" ds
    else acc
  | _, _ => acc

/-- The team-info dict built by the body of _parse_team_info (identical in
both copies of the scraper): name and history when their divs exist, the
established year from the static table keyed by the current team code, and
home / coach from dd items whose label contains the matching fragment. -/
def teamInfoOf (code : Option String) (doc : TeamDoc) : List (String × String) :=
  match doc.brief with
  | none => []
  | some b =>
    let acc : List (String × String) := []
    let acc := match b.nameDiv with
      | some s => insertA acc "name" s
      | none => acc
    let acc := match b.descDiv with
      | some s => insertA acc "history" s
      | none => acc
    let acc := insertA acc "established" (establishedOf code)
    b.items.foldl ddStep acc

/-- Model of _parse_team_info in scrapers/cpbl_scraper.py: the info dict is
returned by the return statement at the end of the function. -/
def parse_team_info_main (code : Option String) (doc : TeamDoc) :
    List (String × String) :=
  teamInfoOf code doc

/-- Model of _parse_team_info in app/scrapers/cpbl_scraper.py: the body
builds the same info dict, but the only return statement of the function sits
inside the except handler; on the normal, exception free path the function
falls off its end, which in Python returns None. -/
def parse_team_info_app (code : Option String) (doc : TeamDoc) :
    Option (List (String × String)) :=
  let _info := teamInfoOf code doc
  none

/-! ### Stats query engine (app/models/player_stats.py) -/

/-- The player-w-logo div of a stats row: the name span and team logo span
texts, when those spans exist. -/
structure StatsDiv where
  nameElem : Option String
  teamElem : Option String
  deriving DecidableEq

/-- One tr of the stats table: the stripped td texts and the player-w-logo
div inside the first td, when present. -/
structure StatsRow where
  cells : List String
  playerDiv : Option StatsDiv
  deriving DecidableEq

/-- A response document of the stats endpoint: the rows of the RecordTable
div, or none when that div is missing. -/
structure StatsDoc where
  table : Option (List StatsRow)
  deriving DecidableEq

/-- One parsed player stat record. -/
structure PlayerStat where
  name : String
  team : String
  stats : List (String × String)
  deriving DecidableEq

/-- Model of cols[i].text.strip() or '0'. -/
def cellOr0 (cells : List String) (i : Nat) : String :=
  let s := cells.getD i ""
  if s = "" then "0" else s

/-- The stats dict built by PlayerStats._parse_table for one row. -/
def statsFrom (cells : List String) : List (String × String) :=
  [("avg", cellOr0 cells 1), ("games", cellOr0 cells 2),
   ("pa", cellOr0 cells 3), ("ab", cellOr0 cells 4),
   ("runs", cellOr0 cells 5), ("rbi", cellOr0 cells 6),
   ("hits", cellOr0 cells 7), ("singles", cellOr0 cells 8),
   ("doubles", cellOr0 cells 9), ("triples", cellOr0 cells 10),
   ("hr", cellOr0 cells 11), ("tb", cellOr0 cells 12),
   ("xbh", cellOr0 cells 13), ("bb", cellOr0 cells 14),
   ("so", cellOr0 cells 17), ("sb", cellOr0 cells 21),
   ("cs", cellOr0 cells 22), ("obp", cellOr0 cells 23),
   ("slg", cellOr0 cells 24), ("ops", cellOr0 cells 25)]

/-- Model of one iteration of the row loop of PlayerStats._parse_table: a
row yields a record only when it has td cells, a player-w-logo div, and both
the name and team spans; reading stat cells up to index 25 raises IndexError
for a shorter row, and the per-row try/except then skips just that row. -/
def parseStatsRow (r : StatsRow) : Option PlayerStat :=
  if r.cells.length = 0 then none
  else
    match r.playerDiv with
    | none => none
    | some pd =>
      match pd.nameElem, pd.teamElem with
      | some nm, some tm =>
        if 26 ≤ r.cells.length then some ⟨nm, tm, statsFrom r.cells⟩
        else none
      | _, _ => none

/-- Model of PlayerStats._parse_table: no RecordTable div yields the empty
list (with only a logged warning), otherwise the header row is skipped and
each remaining row is parsed under its per-row try/except. -/
def parse_table (doc : StatsDoc) : List PlayerStat :=
  match doc.table with
  | none => []
  | some rows =>
    (rows.drop 1).foldl
      (fun acc r =>
        match parseStatsRow r with
        | some p => acc ++ [p]
        | none => acc)
      []

/-- The dict returned by PlayerStats.fetch_player_stats. -/
structure StatResult where
  success : Bool
  data : List PlayerStat
  error : Option String
  timestamp : String
  deriving DecidableEq

/-- Outcome of the POST request issued by fetch_player_stats: a
requests.RequestException, some other exception raised while processing, or a
reachable response document. -/
inductive StatsFetchInput where
  | netFail (msg : String)
  | procFail (msg : String)
  | page (doc : StatsDoc)
  deriving DecidableEq

/-- Model of PlayerStats.fetch_player_stats with the capture time ts:
a RequestException yields success=False with the network error message, any
other exception yields success=False with the data processing message, and a
reachable response yields success=True with the parsed rows. -/
def fetch_player_stats (ts : String) : StatsFetchInput → StatResult
  | StatsFetchInput.netFail m => ⟨false, [], some ("網路請求錯誤: " ++ m), ts⟩
  | StatsFetchInput.procFail m => ⟨false, [], some ("數據處理錯誤: " ++ m), ts⟩
  | StatsFetchInput.page doc => ⟨true, parse_table doc, none, ts⟩

/-! ### Sort direction of BaseballCoach.player_search (app/main.py)

One displayed row of the search dataframe: a label column and the numeric
columns keyed by their Chinese header names. -/

structure StatLine where
  label : String
  stats : List (String × ℚ)
  deriving DecidableEq

/-- Value of the numeric column f of a row. -/
def statOf (p : StatLine) (f : String) : ℚ :=
  (lookupA p.stats f).getD 0

/-- Ordering of rows by ascending value of column f. -/
def keyLe (f : String) (a b : StatLine) : Prop :=
  statOf a f ≤ statOf b f

/-- Ordering of rows by descending value of column f. -/
def keyGe (f : String) (a b : StatLine) : Prop :=
  statOf b f ≤ statOf a f

instance keyLeDec (f : String) : DecidableRel (keyLe f) :=
  fun a b => inferInstanceAs (Decidable (statOf a f ≤ statOf b f))

instance keyGeDec (f : String) : DecidableRel (keyGe f) :=
  fun a b => inferInstanceAs (Decidable (statOf b f ≤ statOf a f))

instance keyLeTotal (f : String) : IsTotal StatLine (keyLe f) :=
  ⟨fun a b => le_total (statOf a f) (statOf b f)⟩

instance keyLeTrans (f : String) : IsTrans StatLine (keyLe f) :=
  ⟨fun _ _ _ => le_trans⟩

instance keyGeTotal (f : String) : IsTotal StatLine (keyGe f) :=
  ⟨fun a b => le_total (statOf b f) (statOf a f)⟩

instance keyGeTrans (f : String) : IsTrans StatLine (keyGe f) :=
  ⟨fun _ _ _ h h2 => le_trans h2 h⟩

/-- Model of df.sort_values(f, ascending=asc). -/
def sortRows (asc : Bool) (f : String) (rows : List StatLine) : List StatLine :=
  if asc then rows.insertionSort (keyLe f)
  else rows.insertionSort (keyGe f)

/-- The sort options of the batter branch of player_search. -/
def batter_sort_fields : List String :=
  ["打擊率", "OPS", "全壘打", "打點", "安打", "上壘率", "長打率"]

/-- The sort options of the pitcher branch of player_search. -/
def pitcher_sort_fields : List String :=
  ["防禦率", "勝場", "中繼點", "救援成功", "三振", "WHIP"]

/-- Model of the batter display: sort_values(sort_by, ascending=False). -/
def batter_search_sort (f : String) (rows : List StatLine) : List StatLine :=
  sortRows false f rows

/-- Model of the pitcher display: ascending = sort_by in ['防禦率', 'WHIP']
followed by sort_values(sort_by, ascending=ascending). -/
def pitcher_search_sort (f : String) (rows : List StatLine) : List StatLine :=
  sortRows (decide (f ∈ (["防禦率", "WHIP"] : List String))) f rows

/-! ### Assembled team data and the persisted snapshot -/

/-- One roster entry as extracted by CPBLScraper._extract_player_data. -/
structure Player where
  name : String
  number : String
  position : String
  photo : Option String
  deriving DecidableEq

/-- The players dict of fetch_team_data, with its five fixed categories. -/
structure Roster where
  coaches : List Player
  pitchers : List Player
  catchers : List Player
  infielders : List Player
  outfielders : List Player
  deriving DecidableEq

/-- Model of players.get(key, []) on the five-category roster dict. -/
def rosterGet (r : Roster) (key : String) : List Player :=
  if key = "coaches" then r.coaches
  else if key = "pitchers" then r.pitchers
  else if key = "catchers" then r.catchers
  else if key = "infielders" then r.infielders
  else if key = "outfielders" then r.outfielders
  else []

/-- The combined team dict returned by fetch_team_data in
app/scrapers/cpbl_scraper.py.  team_info is an Option because
_parse_team_info in that file returns None on its normal path; record and
venue_stats are None when fetch_standings / fetch_venue_stats had no entry
for this team (the .get(team_id, {}) default). -/
structure TeamData where
  team_info : Option (List (String × String))
  players : Roster
  record : Option TeamRecordR
  venue_stats : Option VenueRec
  trends : List GameEntry
  deriving DecidableEq

/-- One game of a head-to-head list. -/
structure H2HGame where
  date : String
  home : String
  away : String
  score : String
  deriving DecidableEq

/-- A value of the loaded data dict: per-team data under a team code, or the
head-to-head mapping under the key head_to_head. -/
inductive SnapVal where
  | team (t : TeamData)
  | h2h (m : List (String × List H2HGame))
  deriving DecidableEq

/-- The data dict assembled by load_data and persisted as JSON. -/
abbrev SnapData := List (String × SnapVal)

/-! ### Freshness cache (BaseballCoach.load_data, app/main.py) -/

/-- The persisted snapshot file: its modification time in seconds, whether
its contents parse as JSON, and the parsed contents. -/
structure FileSt where
  mtime : Nat
  valid : Bool
  content : SnapData
  deriving DecidableEq

/-- Outcome of one scraper.fetch_team_data call: a (truthy) team dict, a
falsy result, or a raised exception. -/
inductive FetchOutcome where
  | ok (d : TeamData)
  | nodata
  | exn
  deriving DecidableEq

/-- Outcome of the scraper.fetch_head_to_head call. -/
inductive H2HOutcome where
  | ok (m : List (String × List H2HGame))
  | exn
  deriving DecidableEq

/-- The collaborators of one load_data run: what each per-team fetch and the
head-to-head fetch would return. -/
structure LoadEnv where
  fetchTeam : String → FetchOutcome
  fetchH2H : H2HOutcome

/-- Observable result of one load_data run: the in-memory data dict, the
snapshot file afterwards, and how many scraper fetches were issued. -/
structure LoadOut where
  data : SnapData
  file : Option FileSt
  netCalls : Nat
  deriving DecidableEq

/-- The data dict assembled by the fetch cycle of load_data: one fetch per
team code in the fixed order, keeping only truthy results and swallowing
per-team exceptions, then the head-to-head fetch, stored only when truthy. -/
def fetchCycleData (env : LoadEnv) : SnapData :=
  let base := team_codes.foldl
    (fun acc tid =>
      match env.fetchTeam tid with
      | FetchOutcome.ok d => insertA acc tid (SnapVal.team d)
      | FetchOutcome.nodata => acc
      | FetchOutcome.exn => acc)
    []
  match env.fetchH2H with
  | H2HOutcome.ok m =>
    if m.isEmpty then base else insertA base "head_to_head" (SnapVal.h2h m)
  | H2HOutcome.exn => base

/-- The fetch branch of load_data: assemble the data dict, then write it to
the snapshot file whenever it is non-empty (if self.data:), leaving the
previous file state otherwise. -/
def runFetchCycle (now : Nat) (file0 : Option FileSt) (env : LoadEnv) :
    LoadOut :=
  let d := fetchCycleData env
  { data := d
    file := if d.isEmpty then file0 else some ⟨now, true, d⟩
    netCalls := team_codes.length + 1 }

/-- Model of BaseballCoach.load_data at wall clock time now.  A present
snapshot younger than one hour that parses is returned as is with no network
call; a fresh but corrupt snapshot is deleted before refetching; a stale or
absent snapshot triggers the fetch cycle. -/
def load_data (now : Nat) (file : Option FileSt) (env : LoadEnv) : LoadOut :=
  match file with
  | some fs =>
    if now - fs.mtime < 3600 then
      if fs.valid then { data := fs.content, file := some fs, netCalls := 0 }
      else runFetchCycle now none env
    else runFetchCycle now (some fs) env
  | none => runFetchCycle now none env

/-! ### Rule based lookup assistant (app/models/baseball_llm.py) -/

/-- The alias table of BaseballLLM, in dict order. -/
def team_aliases : List (String × List String) :=
  [("ACN", ["中信兄弟", "兄弟", "中信"]),
   ("ADD", ["統一7-ELEVEn獅", "統一獅", "統一", "統一7-11獅"]),
   ("AJL", ["樂天桃猿", "樂天", "桃猿"]),
   ("AEO", ["富邦悍將", "富邦", "悍將"]),
   ("AAA", ["味全龍", "味全", "龍隊"]),
   ("AKP", ["台鋼雄鷹", "台鋼", "雄鷹"])]

/-- The greeting words checked against the lowercased question. -/
def greeting_words : List String :=
  ["你好", "哈囉", "嗨", "hi", "hello"]

/-- The roster query keywords. -/
def roster_keywords : List String :=
  ["名單", "球員", "陣容", "有哪些"]

/-- The basic info query keywords. -/
def basic_keywords : List String :=
  ["主場", "基本資料", "在哪裡", "是哪裡"]

/-- The position keyword to roster category table, in dict order. -/
def positions_table : List (String × String) :=
  [("投手", "pitchers"), ("捕手", "catchers"), ("內野手", "infielders"),
   ("外野手", "outfielders"), ("教練團", "coaches")]

/-- The knowledge state of BaseballLLM: the initialized flag and the data
dict handed over by initialize_knowledge. -/
structure KB where
  initialized : Bool
  data : SnapData

/-- Model of question.replace('？', '').replace('?', '').strip(). -/
def cleanQ (q : String) : String :=
  trimS (String.mk ((q.data.filter (fun c => c ≠ '？')).filter
    (fun c => c ≠ '?')))

/-- Model of the loop of BaseballLLM._find_team over the alias table: the
first team one of whose aliases occurs in the question and whose stored data
carries a team_info dict with a non-empty name wins; every other case falls
through to the next team. -/
def find_team_go (data : SnapData) (q : String) :
    List (String × List String) → Option (String × String)
  | [] => none
  | (tid, als) :: rest =>
    if als.any (fun a => strContains q a) then
      match lookupA data tid with
      | some (SnapVal.team t) =>
        (match t.team_info with
         | some infoD =>
           (match lookupA infoD "name" with
            | some nm =>
              if nm = "" then find_team_go data q rest else some (tid, nm)
            | none => find_team_go data q rest)
         | none => find_team_go data q rest)
      | _ => find_team_go data q rest
    else find_team_go data q rest

/-- Model of BaseballLLM._find_team. -/
def find_team (data : SnapData) (q : String) : Option (String × String) :=
  find_team_go data q team_aliases

/-- Model of the roster line list built for one position. -/
def playerListStr (players : List Player) : String :=
  String.intercalate "\n"
    (players.map (fun p => "* " ++ p.name ++ " (背號:" ++ p.number ++ ")"))

/-- Model of team_info.get(key, '未知') with the None-to-empty-dict guard. -/
def infoGet (t : TeamData) (key : String) : String :=
  match t.team_info with
  | some d => (lookupA d key).getD "未知"
  | none => "未知"

/-- The response list built by BaseballLLM.query once a team was found. -/
def teamResponses (q : String) (t : TeamData) (nm : String) : List String :=
  let roster :=
    if roster_keywords.any (fun kw => strContains q kw) then
      let positions := positions_table.filter (fun p => strContains q p.1)
      let positions := if positions.isEmpty then positions_table else positions
      positions.map
        (fun p =>
          let players := rosterGet t.players p.2
          if players.isEmpty then nm ++ "目前無" ++ p.1 ++ "資料"
          else nm ++ "的" ++ p.1 ++ "名單：\n" ++ playerListStr players)
    else []
  let withBasic :=
    if roster.isEmpty || basic_keywords.any (fun kw => strContains q kw) then
      roster ++ [nm ++ "的基本資料：", "主場：" ++ infoGet t "home",
                 "總教練：" ++ infoGet t "coach"]
    else roster
  match t.record with
  | some r =>
    withBasic ++ ["目前戰績：" ++ toString r.wins ++ "勝" ++
                  toString r.losses ++ "敗 勝率" ++ r.ratio]
  | none => withBasic

/-- Model of BaseballLLM.query: the initialization and data guards, the
greeting shortcut on the lowercased raw question, question cleaning, team
identification, and the assembled response; a question naming no known team
gets the fixed ask-for-a-team prompt. -/
def query (kb : KB) (q0 : String) : String :=
  if kb.initialized = false then "系統尚未準備就緒，請稍後再試。"
  else if kb.data.isEmpty then "系統數據未載入，請稍後再試。"
  else if greeting_words.any (fun w => strContains (lowerS q0) w) then
    "你好！我是CPBL教練助手，我有中華職棒所有球隊的最新資料。您想了解什麼呢？"
  else
    let q := cleanQ q0
    match find_team kb.data q with
    | none => "請告訴我您想查詢哪支球隊的資訊。"
    | some (tid, nm) =>
      match lookupA kb.data tid with
      | some (SnapVal.team t) =>
        String.intercalate "\n" (teamResponses q t nm)
      | _ => "未找到 " ++ nm ++ " 的數據"

/-- Every alias of the alias table, flattened in table order. -/
def all_aliases : List String :=
  team_aliases.foldr (fun p acc => p.2 ++ acc) []

/-! ### Helper lemmas about the dict model -/

lemma lookupA_insertA_self {α : Type} (l : List (String × α)) (k : String)
    (v : α) : lookupA (insertA l k v) k = some v := by
  induction l with
  | nil => simp [insertA, lookupA]
  | cons p t ih =>
    obtain ⟨k0, v0⟩ := p
    by_cases h : k0 = k
    · subst h
      simp [insertA, lookupA]
    · have h' : ¬(k = k0) := fun e => h e.symm
      simp [insertA, lookupA, h, h', ih]

lemma lookupA_insertA_ne {α : Type} (l : List (String × α)) (k key : String)
    (v : α) (hk : key ≠ k) : lookupA (insertA l k v) key = lookupA l key := by
  induction l with
  | nil => simp [insertA, lookupA, hk]
  | cons p t ih =>
    obtain ⟨k0, v0⟩ := p
    by_cases h : k0 = k
    · subst h
      simp [insertA, lookupA, hk]
    · simp [insertA, lookupA, h, ih]

lemma lookupA_appendEntry_self (l : List (String × List GameEntry))
    (k : String) (e : GameEntry) :
    lookupA (appendEntry l k e) k = some ((lookupA l k).getD [] ++ [e]) := by
  induction l with
  | nil => simp [appendEntry, lookupA]
  | cons p t ih =>
    obtain ⟨k0, l0⟩ := p
    by_cases h : k0 = k
    · subst h
      simp [appendEntry, lookupA]
    · have h' : ¬(k = k0) := fun e => h e.symm
      simp [appendEntry, lookupA, h, h', ih]

lemma lookupA_appendEntry_ne (l : List (String × List GameEntry))
    (k key : String) (e : GameEntry) (hk : key ≠ k) :
    lookupA (appendEntry l k e) key = lookupA l key := by
  induction l with
  | nil => simp [appendEntry, lookupA, hk]
  | cons p t ih =>
    obtain ⟨k0, l0⟩ := p
    by_cases h : k0 = k
    · subst h
      simp [appendEntry, lookupA, hk]
    · simp [appendEntry, lookupA, h, ih]

/-- The dd-item loop writes only the home and coach keys, so it never touches
the established entry. -/
lemma ddFold_lookup_established (items : List DDItem) :
    ∀ acc, lookupA (items.foldl ddStep acc) "established" =
      lookupA acc "established" := by
  induction items with
  | nil => intro acc; rfl
  | cons it t ih =>
    intro acc
    rw [List.foldl_cons, ih]
    rcases h1 : it.label with _ | lb
    · simp [ddStep, h1]
    rcases h2 : it.desc with _ | ds
    · simp [ddStep, h1, h2]
    by_cases hb : strContains lb "主球場" = true
    · simp [ddStep, h1, h2, hb,
        lookupA_insertA_ne _ _ _ _ (by decide : ("established" : String) ≠ "home")]
    by_cases hc : strContains lb "總教練" = true
    · simp [ddStep, h1, h2, hb, hc,
        lookupA_insertA_ne _ _ _ _ (by decide : ("established" : String) ≠ "coach")]
    · simp [ddStep, h1, h2, hb, hc]

/-- A venue row that raises aborts the sequential row loop no matter where it
sits in the list. -/
lemma venueGo_error (b : VRow) (hb : parseVRow b = Except.error ()) (ys : List VRow) :
    ∀ (xs : List VRow) (acc : List (String × VenueRec)),
      venueGo (xs ++ b :: ys) acc = Except.error () := by
  intro xs
  induction xs with
  | nil => intro acc; simp [venueGo, hb]
  | cons r t ih =>
    intro acc
    rw [List.cons_append]
    show venueGo (r :: (t ++ b :: ys)) acc = Except.error ()
    rcases h : parseVRow r with e | o
    · cases e
      simp [venueGo, h]
    · rcases o with _ | ⟨tid, rec⟩
      · simp [venueGo, h, ih]
      · simp [venueGo, h, ih]

/-! ### Claim C10 -/

/-- Claim C10: the calculator operations calculate_batting_avg, calculate_era and
calculate_whip are total: a zero denominator (at_bats, innings) yields 0.0
instead of a division-by-zero error, and every other input yields the exact
quotient formula of the source. -/
theorem c10_calculator_total (h a er inn w : ℚ) :
    calculate_batting_avg h 0 = 0 ∧
    calculate_era er 0 = 0 ∧
    calculate_whip w h 0 = 0 ∧
    (a ≠ 0 → calculate_batting_avg h a = h / a) ∧
    (inn ≠ 0 → calculate_era er inn = er * 9 / inn) ∧
    (inn ≠ 0 → calculate_whip w h inn = (w + h) / inn) := by
  refine ⟨rfl, rfl, rfl, ?_, ?_, ?_⟩ <;> intro hz
  · simp [calculate_batting_avg, hz]
  · simp [calculate_era, hz]
  · simp [calculate_whip, hz]

/-- Witness for C10: the calculator evaluated at concrete inputs. -/
theorem c10_calculator_total_witness :
    calculate_batting_avg 3 10 = 3 / 10 ∧
    calculate_era 4 9 = 4 * 9 / 9 ∧
    calculate_whip 5 3 9 = (5 + 3) / 9 ∧
    calculate_batting_avg 3 0 = 0 := by
  have h := c10_calculator_total 3 10 4 9 5
  have h9 : (9 : ℚ) ≠ 0 := by norm_num
  exact ⟨h.2.2.2.1 (by norm_num), h.2.2.2.2.1 h9, h.2.2.2.2.2 h9, h.1⟩

/-! ### Claim C6 -/

/-- Claim C6: the established_year lookup is pure and total: each of the six fixed
team codes yields exactly the value of the static table (AKP yields 2023), an
unknown code yields the explicit N/A sentinel, and the value stored in the
parsed team info depends only on the team code, never on the document. -/
theorem c6_established_lookup :
    establishedYear "ACN" = "1990" ∧ establishedYear "ADD" = "1990" ∧
    establishedYear "AJL" = "2003" ∧ establishedYear "AEO" = "1993" ∧
    establishedYear "AAA" = "1990" ∧ establishedYear "AKP" = "2023" ∧
    (∀ c : String, c ∉ team_codes → establishedYear c = "N/A") ∧
    (∀ (code : String) (b : TeamBrief),
      lookupA (parse_team_info_main (some code) ⟨some b⟩) "established" =
        some (establishedYear code)) := by
  refine ⟨rfl, rfl, rfl, rfl, rfl, rfl, ?_, ?_⟩
  · intro c hc
    simp only [team_codes, List.mem_cons, List.not_mem_nil, or_false,
      not_or] at hc
    obtain ⟨h1, h2, h3, h4, h5, h6⟩ := hc
    simp [establishedYear, team_established_years, lookupA, h1, h2, h3, h4,
      h5, h6]
  · intro code b
    show lookupA (teamInfoOf (some code) ⟨some b⟩) "established" =
      some (establishedYear code)
    unfold teamInfoOf
    rw [ddFold_lookup_established, lookupA_insertA_self]
    rfl

/-- Witness for C6: an unknown code yields the sentinel and the parsed info of a
concrete document stores the static AKP year. -/
theorem c6_established_lookup_witness :
    establishedYear "XYZ" = "N/A" ∧
    lookupA (parse_team_info_main (some "AKP") ⟨some ⟨some "台鋼雄鷹", none, []⟩⟩)
      "established" = some (establishedYear "AKP") := by
  have h := c6_established_lookup
  exact ⟨h.2.2.2.2.2.2.1 "XYZ" (by decide),
    h.2.2.2.2.2.2.2 "AKP" ⟨some "台鋼雄鷹", none, []⟩⟩

/-! ### Claim C8 -/

/-- Claim C8: sorting a displayed result set by earned-run average or WHIP orders
rows ascending, and sorting by any other numeric sort option (batting
average, OPS, home runs, wins, strikeouts, and so on) orders rows descending,
by default. -/
theorem c8_sort_direction (f : String) (rows : List StatLine) :
    ((f = "防禦率" ∨ f = "WHIP") →
      List.Sorted (keyLe f) (pitcher_search_sort f rows)) ∧
    (f ∈ pitcher_sort_fields → ¬(f = "防禦率" ∨ f = "WHIP") →
      List.Sorted (keyGe f) (pitcher_search_sort f rows)) ∧
    (f ∈ batter_sort_fields →
      List.Sorted (keyGe f) (batter_search_sort f rows)) := by
  refine ⟨?_, ?_, ?_⟩
  · intro h
    have hm : f ∈ (["防禦率", "WHIP"] : List String) := by
      rcases h with h | h <;> simp [h]
    simp only [pitcher_search_sort, sortRows, decide_eq_true hm, if_true]
    exact List.sorted_insertionSort _ _
  · intro _ h
    have hm : f ∉ (["防禦率", "WHIP"] : List String) := by
      simp only [List.mem_cons, List.not_mem_nil, or_false]
      exact h
    simp only [pitcher_search_sort, sortRows, decide_eq_false hm,
      Bool.false_eq_true, if_false]
    exact List.sorted_insertionSort _ _
  · intro _
    simp only [batter_search_sort, sortRows, Bool.false_eq_true, if_false]
    exact List.sorted_insertionSort _ _

/-- Witness for C8: concrete two-row result sets sorted by WHIP (ascending), by
wins and by batting average (descending). -/
theorem c8_sort_direction_witness :
    List.Sorted (keyLe "WHIP")
      (pitcher_search_sort "WHIP"
        [⟨"a", [("WHIP", 2)]⟩, ⟨"b", [("WHIP", 1)]⟩]) ∧
    List.Sorted (keyGe "勝場")
      (pitcher_search_sort "勝場"
        [⟨"a", [("勝場", 2)]⟩, ⟨"b", [("勝場", 7)]⟩]) ∧
    List.Sorted (keyGe "打擊率")
      (batter_search_sort "打擊率"
        [⟨"a", [("打擊率", 1/4)]⟩, ⟨"b", [("打擊率", 1/3)]⟩]) := by
  refine ⟨(c8_sort_direction "WHIP" _).1 (Or.inr rfl),
    (c8_sort_direction "勝場" _).2.1 (by decide) (by decide),
    (c8_sort_direction "打擊率" _).2.2 (by decide)⟩

/-! ### Claim C2 -/

/-- Claim C2: a persisted snapshot strictly younger than one hour that parses is
returned by load_data as is with zero network calls and an unchanged file,
and a second load still inside the TTL window (with no intervening fetch)
returns identical data, whatever either load's network environment would
have answered. -/
theorem c2_fresh_load_idempotent (now1 now2 : Nat) (fs : FileSt)
    (env1 env2 : LoadEnv) (h1 : now1 - fs.mtime < 3600) (hv : fs.valid = true)
    (h2 : now2 - fs.mtime < 3600) :
    (load_data now1 (some fs) env1).netCalls = 0 ∧
    (load_data now1 (some fs) env1).data = fs.content ∧
    (load_data now1 (some fs) env1).file = some fs ∧
    (load_data now2 (load_data now1 (some fs) env1).file env2).data =
      (load_data now1 (some fs) env1).data := by
  simp [load_data, h1, h2, hv]

/-- Witness for C2: a concrete 10-minute-old snapshot loaded twice, against an
environment whose every fetch would raise. -/
theorem c2_fresh_load_idempotent_witness :
    (load_data 600 (some ⟨0, true, [("ACN", SnapVal.team
      ⟨none, ⟨[], [], [], [], []⟩, none, none, []⟩)]⟩)
      ⟨fun _ => FetchOutcome.exn, H2HOutcome.exn⟩).netCalls = 0 ∧
    (load_data 600 (some ⟨0, true, [("ACN", SnapVal.team
      ⟨none, ⟨[], [], [], [], []⟩, none, none, []⟩)]⟩)
      ⟨fun _ => FetchOutcome.exn, H2HOutcome.exn⟩).data =
      [("ACN", SnapVal.team ⟨none, ⟨[], [], [], [], []⟩, none, none, []⟩)] ∧
    (load_data 600 (some ⟨0, true, [("ACN", SnapVal.team
      ⟨none, ⟨[], [], [], [], []⟩, none, none, []⟩)]⟩)
      ⟨fun _ => FetchOutcome.exn, H2HOutcome.exn⟩).file =
      some ⟨0, true, [("ACN", SnapVal.team
        ⟨none, ⟨[], [], [], [], []⟩, none, none, []⟩)]⟩ ∧
    (load_data 1800 (load_data 600 (some ⟨0, true, [("ACN", SnapVal.team
      ⟨none, ⟨[], [], [], [], []⟩, none, none, []⟩)]⟩)
      ⟨fun _ => FetchOutcome.exn, H2HOutcome.exn⟩).file
      ⟨fun _ => FetchOutcome.exn, H2HOutcome.exn⟩).data =
    (load_data 600 (some ⟨0, true, [("ACN", SnapVal.team
      ⟨none, ⟨[], [], [], [], []⟩, none, none, []⟩)]⟩)
      ⟨fun _ => FetchOutcome.exn, H2HOutcome.exn⟩).data :=
  c2_fresh_load_idempotent 600 1800 _ _ _ (by decide) rfl (by decide)

/-! ### Claim C1 -/

/-- The old snapshot on disk before the failing refresh cycle of C1. -/
def c1OldSnap : SnapData :=
  [("ACN", SnapVal.team ⟨none, ⟨[], [], [], [], []⟩, none, none, []⟩)]

/-- The head-to-head result of the failing cycle of C1. -/
def c1H2H : List (String × List H2HGame) :=
  [("AAA_ACN", [⟨"2024-05-01", "味全龍", "中信兄弟", "3-2"⟩])]

/-- The network environment of the failing cycle of C1: every per-team fetch
raises, only the head-to-head fetch succeeds. -/
def c1Env : LoadEnv :=
  ⟨fun _ => FetchOutcome.exn, H2HOutcome.ok c1H2H⟩

/-- Claim C1: evaluation of load_data at a cycle in which every one of the six
per-team fetches raises but the head-to-head fetch succeeds.  The stale
snapshot file is overwritten with a dict holding only the head_to_head key,
although the cycle produced zero successful team results, so head-to-head
data alone does make the cycle overwrite the previous snapshot. -/
theorem c1_total_failure_overwrites :
    team_codes.all
      (fun tid => decide (c1Env.fetchTeam tid = FetchOutcome.exn)) = true ∧
    (load_data 7200 (some ⟨0, true, c1OldSnap⟩) c1Env).data.filter
      (fun p => p.1 ≠ "head_to_head") = [] ∧
    (load_data 7200 (some ⟨0, true, c1OldSnap⟩) c1Env).file =
      some ⟨7200, true, [("head_to_head", SnapVal.h2h c1H2H)]⟩ ∧
    (load_data 7200 (some ⟨0, true, c1OldSnap⟩) c1Env).file ≠
      some ⟨0, true, c1OldSnap⟩ := by
  refine ⟨by decide, by decide, by decide, by decide⟩

/-! ### Claim C3 -/

/-- Counterexample for C3: a reachable response whose body has no RecordTable div
is parsed into success=True with an empty data list and no error, so a
successful StatResult may carry empty data and a malformed-but-reachable
response does not yield success=false. -/
theorem c3_counterexample :
    (fetch_player_stats "2024-01-01T00:00:00"
      (StatsFetchInput.page ⟨none⟩)).success = true ∧
    (fetch_player_stats "2024-01-01T00:00:00"
      (StatsFetchInput.page ⟨none⟩)).data = [] ∧
    (fetch_player_stats "2024-01-01T00:00:00"
      (StatsFetchInput.page ⟨none⟩)).error = none := by
  exact ⟨rfl, rfl, rfl⟩

/-- Amended claim C3: a network failure yields success=false with the descriptive
network error message and the capture timestamp; any other raised processing
exception yields success=false with the data-processing error; a reachable
response yields success=true whose data is exactly the list of parsed rows,
which is empty (not an error) when the response carries no recognizable
stats table. -/
theorem c3_stat_result_branches (ts m : String) (doc : StatsDoc) :
    fetch_player_stats ts (StatsFetchInput.netFail m) =
      ⟨false, [], some ("網路請求錯誤: " ++ m), ts⟩ ∧
    fetch_player_stats ts (StatsFetchInput.procFail m) =
      ⟨false, [], some ("數據處理錯誤: " ++ m), ts⟩ ∧
    fetch_player_stats ts (StatsFetchInput.page doc) =
      ⟨true, parse_table doc, none, ts⟩ ∧
    (doc.table = none → parse_table doc = []) := by
  refine ⟨rfl, rfl, rfl, ?_⟩
  intro h
  simp [parse_table, h]

/-- Witness for C3: the three branches evaluated at a concrete timestamp, message
and tableless document. -/
theorem c3_stat_result_branches_witness :
    fetch_player_stats "t0" (StatsFetchInput.netFail "down") =
      ⟨false, [], some ("網路請求錯誤: " ++ "down"), "t0"⟩ ∧
    fetch_player_stats "t0" (StatsFetchInput.page ⟨none⟩) =
      ⟨true, parse_table ⟨none⟩, none, "t0"⟩ ∧
    parse_table (⟨none⟩ : StatsDoc) = [] := by
  have h := c3_stat_result_branches "t0" "down" ⟨none⟩
  exact ⟨h.1, h.2.2.1, h.2.2.2 rfl⟩

/-! ### Claim C5 -/

/-- Claim C5: evaluation of both copies of _parse_team_info on a document with no
TeamBrief block.  The copy in scrapers/cpbl_scraper.py returns the empty
dict, but the copy in app/scrapers/cpbl_scraper.py, the one imported by
app/main.py, returns None on every exception-free path, because its only
return statement sits inside the except handler. -/
theorem c5_team_info_none_not_empty :
    parse_team_info_main (some "ACN") ⟨none⟩ = [] ∧
    parse_team_info_app (some "ACN") ⟨none⟩ = none ∧
    parse_team_info_app (some "ACN")
      ⟨some ⟨some "中信兄弟", none, []⟩⟩ = none := by
  exact ⟨rfl, rfl, rfl⟩

/-! ### Claim C4 -/

/-- A venue row whose first td has no team div: reading it raises an
AttributeError. -/
def c4BadVRow : VRow := ⟨["x"], none⟩

/-- A perfectly well-formed venue row for the ACN team. -/
def c4GoodVRow : VRow := ⟨["d", "j", "5-3", "4-6"], some "中信兄弟"⟩

/-- The header row of a venue or standings table (always dropped). -/
def c4Header : VRow := ⟨[], none⟩

/-- Counterexample for C4: on the venue-split page a malformed row does not only
lose that row: the same well-formed row that parses when it stands alone is
discarded together with the whole page output as soon as one malformed row
precedes it, because the venue row loop has no per-row recovery. -/
theorem c4_counterexample :
    fetch_venue_stats ⟨some [c4Header, c4BadVRow, c4GoodVRow]⟩ = [] ∧
    (fetch_venue_stats ⟨some [c4Header, c4GoodVRow]⟩).map Prod.fst =
      ["ACN"] := by
  exact ⟨rfl, by decide⟩

/-- Amended claim C4: per-row error containment holds for the standings and
recent-games documents, whose row loops run under a per-row try/except (a row
that parses to nothing can be removed without changing the result), but not
for the venue-split document: there any row that raises makes the whole fetch
return the empty mapping. -/
theorem c4_row_error_containment :
    (∀ (hd b : SRow) (xs ys : List SRow), parseSRow b = none →
      fetch_standings ⟨some (hd :: (xs ++ b :: ys))⟩ =
        fetch_standings ⟨some (hd :: (xs ++ ys))⟩) ∧
    (∀ (b : GameRow) (xs ys : List GameRow), gameParse b = none →
      fetch_recent_games ⟨xs ++ b :: ys⟩ = fetch_recent_games ⟨xs ++ ys⟩) ∧
    (∀ (hd b : VRow) (xs ys : List VRow), parseVRow b = Except.error () →
      fetch_venue_stats ⟨some (hd :: (xs ++ b :: ys))⟩ = []) := by
  refine ⟨?_, ?_, ?_⟩
  · intro hd b xs ys h
    show standingsOfRows (xs ++ b :: ys) = standingsOfRows (xs ++ ys)
    unfold standingsOfRows
    rw [List.foldl_append, List.foldl_append, List.foldl_cons]
    have hstep : ∀ acc, standingsStep acc b = acc := by
      intro acc; simp [standingsStep, h]
    rw [hstep]
  · intro b xs ys h
    have hfold : (xs ++ b :: ys).foldl processGame [] =
        (xs ++ ys).foldl processGame [] := by
      rw [List.foldl_append, List.foldl_append, List.foldl_cons]
      have hstep : ∀ acc, processGame acc b = acc := by
        intro acc; simp [processGame, h]
      rw [hstep]
    simp [fetch_recent_games, hfold]
  · intro hd b xs ys h
    show (match venueGo (xs ++ b :: ys) [] with
      | Except.ok l => l
      | Except.error _ => []) = []
    rw [venueGo_error b h ys xs]

/-- Witness for C4: the three containment statements applied to concrete
documents: a skipped standings row, a skipped game card, and a venue row
whose record divides by zero. -/
theorem c4_row_error_containment_witness :
    fetch_standings ⟨some [⟨[], none, none⟩,
      ⟨["x", "y", "8-1-2", "0.889", "z"], none, none⟩,
      ⟨["x", "y", "8-1-2", "0.889", "z"], some "中信兄弟", none⟩]⟩ =
    fetch_standings ⟨some [⟨[], none, none⟩,
      ⟨["x", "y", "8-1-2", "0.889", "z"], some "中信兄弟", none⟩]⟩ ∧
    fetch_recent_games ⟨[⟨none, ["中信兄弟", "味全龍"], some "3:2"⟩,
      ⟨some "2024-05-01", ["中信兄弟", "味全龍"], some "3:2"⟩]⟩ =
    fetch_recent_games ⟨[⟨some "2024-05-01", ["中信兄弟", "味全龍"],
      some "3:2"⟩]⟩ ∧
    fetch_venue_stats ⟨some [c4Header,
      ⟨["d", "j", "0-0", "4-6"], some "味全龍"⟩, c4GoodVRow]⟩ = [] := by
  have h := c4_row_error_containment
  exact ⟨h.1 ⟨[], none, none⟩ ⟨["x", "y", "8-1-2", "0.889", "z"], none, none⟩
      [] [⟨["x", "y", "8-1-2", "0.889", "z"], some "中信兄弟", none⟩]
      (by decide),
    h.2.1 ⟨none, ["中信兄弟", "味全龍"], some "3:2"⟩ []
      [⟨some "2024-05-01", ["中信兄弟", "味全龍"], some "3:2"⟩] rfl,
    h.2.2 c4Header ⟨["d", "j", "0-0", "4-6"], some "味全龍"⟩ []
      [c4GoodVRow] rfl⟩

/-! ### Claim C9 -/

/-- Claim C9: a game card whose date and score elements exist, whose two team
names resolve to distinct known codes and whose score splits into two ints
appends exactly one entry to the home team's list and one to the away
team's list, with identical date and score string, and the away result is W
exactly when the home result is L. -/
theorem c9_recent_game_pairing (acc : List (String × List GameEntry))
    (g : GameRow) (d sc hid aid : String) (hs az : Int)
    (hdte : g.date = some d) (hsc : g.score = some sc)
    (hlen : g.teams.length = 2)
    (hh : get_team_id (g.teams.getD 0 "") = some hid)
    (ha : get_team_id (g.teams.getD 1 "") = some aid)
    (hs2 : (splitOnChar ':' sc).length = 2)
    (hp0 : pyInt ((splitOnChar ':' sc).getD 0 "") = some hs)
    (hp1 : pyInt ((splitOnChar ':' sc).getD 1 "") = some az)
    (hne : hid ≠ aid) :
    gameParse g = some (hid, aid, homeEntryOf d hs az, awayEntryOf d hs az) ∧
    processGame acc g =
      appendEntry (appendEntry acc hid (homeEntryOf d hs az)) aid
        (awayEntryOf d hs az) ∧
    (homeEntryOf d hs az).date = (awayEntryOf d hs az).date ∧
    (homeEntryOf d hs az).score = (awayEntryOf d hs az).score ∧
    ((awayEntryOf d hs az).result = "W" ↔
      (homeEntryOf d hs az).result = "L") ∧
    lookupA (processGame acc g) hid =
      some ((lookupA acc hid).getD [] ++ [homeEntryOf d hs az]) ∧
    lookupA (processGame acc g) aid =
      some ((lookupA acc aid).getD [] ++ [awayEntryOf d hs az]) := by
  have hg : gameParse g =
      some (hid, aid, homeEntryOf d hs az, awayEntryOf d hs az) := by
    unfold gameParse
    rw [hdte, hsc]
    simp only [hlen, if_true, hh, ha, hs2, hp0, hp1]
  have hp : processGame acc g =
      appendEntry (appendEntry acc hid (homeEntryOf d hs az)) aid
        (awayEntryOf d hs az) := by
    simp [processGame, hg]
  refine ⟨hg, hp, rfl, rfl, ?_, ?_, ?_⟩
  · by_cases hlt : az < hs <;> simp [homeEntryOf, awayEntryOf, hlt]
  · rw [hp, lookupA_appendEntry_ne _ _ _ _ hne, lookupA_appendEntry_self]
  · rw [hp, lookupA_appendEntry_self,
      lookupA_appendEntry_ne _ _ _ _ (Ne.symm hne)]

/-- Witness for C9: the concrete game 中信兄弟 3:2 味全龍 appends a W entry to
the ACN list and an L entry with the same date and score to the AAA list. -/
theorem c9_recent_game_pairing_witness :
    lookupA (processGame []
      ⟨some "2024-05-01", ["中信兄弟", "味全龍"], some "3:2"⟩) "ACN" =
      some ((lookupA ([] : List (String × List GameEntry)) "ACN").getD [] ++
        [homeEntryOf "2024-05-01" 3 2]) ∧
    lookupA (processGame []
      ⟨some "2024-05-01", ["中信兄弟", "味全龍"], some "3:2"⟩) "AAA" =
      some ((lookupA ([] : List (String × List GameEntry)) "AAA").getD [] ++
        [awayEntryOf "2024-05-01" 3 2]) ∧
    homeEntryOf "2024-05-01" 3 2 = ⟨"2024-05-01", "W", "3-2"⟩ ∧
    awayEntryOf "2024-05-01" 3 2 = ⟨"2024-05-01", "L", "3-2"⟩ := by
  have h := c9_recent_game_pairing []
    ⟨some "2024-05-01", ["中信兄弟", "味全龍"], some "3:2"⟩
    "2024-05-01" "3:2" "ACN" "AAA" 3 2 rfl rfl rfl (by decide) (by decide)
    (by decide) (by decide) (by decide) (by decide)
  exact ⟨h.2.2.2.2.2.1, h.2.2.2.2.2.2, by decide, by decide⟩

/-! ### Claim C7 -/

/-- A knowledge base that knows the player 林智勝 (jersey 99, infielder) on
the 中信兄弟 roster. -/
def c7KB : KB :=
  ⟨true, [("ACN", SnapVal.team
    { team_info := some [("name", "中信兄弟"),
        ("home", "台中洲際棒球場"), ("coach", "平野惠一")]
      players := ⟨[], [], [], [⟨"林智勝", "99", "內野手", none⟩], []⟩
      record := some ⟨1, 8, 2, "0.800"⟩
      venue_stats := none
      trends := [] })]⟩

/-- Counterexample for C7: a question naming a known player together with the
identity cue 守備位置 does not get a player fact string: the assistant has no
player-name matching at all, so the reply is the fixed ask-for-a-team prompt
and in particular never contains the jersey number 99 that the knowledge
base stores for that player. -/
theorem c7_counterexample :
    query c7KB "林智勝的守備位置" = "請告訴我您想查詢哪支球隊的資訊。" ∧
    strContains (query c7KB "林智勝的守備位置") "99" = false ∧
    (rosterGet (⟨[], [], [], [⟨"林智勝", "99", "內野手", none⟩], []⟩ : Roster)
      "infielders").map (fun p => (p.name, p.number, p.position)) =
      [("林智勝", "99", "內野手")] := by
  refine ⟨by decide, by decide, by decide⟩

/-- Amended claim C7: entity extraction in BaseballLLM.query matches team aliases
only.  For every initialized knowledge base with data and every non-greeting
question in which no team alias occurs (after stripping question marks), the
assistant answers with the fixed ask-for-a-team prompt, whether or not the
question names a known player or contains an identity cue such as 位置. -/
theorem c7_no_alias_asks_for_team (kb : KB) (q : String)
    (hinit : kb.initialized = true) (hdata : kb.data ≠ [])
    (hgreet : greeting_words.all
      (fun w => !(strContains (lowerS q) w)) = true)
    (halias : all_aliases.all
      (fun a => !(strContains (cleanQ q) a)) = true) :
    query kb q = "請告訴我您想查詢哪支球隊的資訊。" := by
  simp only [greeting_words, List.all_cons, List.all_nil, Bool.and_eq_true,
    Bool.not_eq_true'] at hgreet
  obtain ⟨g1, g2, g3, g4, g5, -⟩ := hgreet
  simp only [all_aliases, team_aliases, List.foldr_cons, List.foldr_nil,
    List.cons_append, List.nil_append, List.all_cons, List.all_nil,
    Bool.and_eq_true, Bool.not_eq_true'] at halias
  obtain ⟨a1, a2, a3, a4, a5, a6, a7, a8, a9, a10, a11, a12, a13, a14, a15,
    a16, a17, a18, a19, -⟩ := halias
  have hde : kb.data.isEmpty = false := by
    cases hkd : kb.data with
    | nil => exact absurd hkd hdata
    | cons p t => rfl
  have hfind : find_team kb.data (cleanQ q) = none := by
    simp [find_team, find_team_go, team_aliases, a1, a2, a3, a4, a5, a6, a7,
      a8, a9, a10, a11, a12, a13, a14, a15, a16, a17, a18, a19]
  unfold query
  simp [hinit, hde, g1, g2, g3, g4, g5, hfind, greeting_words]

/-- Witness for C7: a concrete knowledge base and a concrete alias-free question
answered with the ask-for-a-team prompt. -/
theorem c7_no_alias_asks_for_team_witness :
    query c7KB "張三住在哪裡" = "請告訴我您想查詢哪支球隊的資訊。" :=
  c7_no_alias_asks_for_team c7KB "張三住在哪裡" rfl (by decide) (by decide)
    (by decide)

end Baseball
